import Mathlib

/-!
Verification of the Helical Engine governance kernel (`src/helical_kernal.py`).

The Python source is shallowly embedded below.  Text is `List Char`;
Python floats are modelled as exact real numbers (costs and table entries,
which are all small literals, are kept in `ℚ` and cast into `ℝ` where the
session ledger needs them).  The two pieces of behaviour delegated to the
Python standard library whose full semantics are out of reach — `ast.parse`
and the byte-level corners of `base64`/UTF-8 — are handled as follows:
`ast.parse` is an explicit oracle parameter of the engine (the repository
code only consumes the parse tree through its own walk, which is embedded
faithfully), and the base64/UTF-8 decoding pipeline is embedded directly
for the token shape `[A-Za-z0-9+/]{20,}={0,2}` that the repository's regex
guarantees for every decoded candidate.
-/

set_option maxHeartbeats 1000000

namespace Helical

/-- Characters of a Python string; the model of `str` used throughout. -/
abbrev Text := List Char

/-- Model of Python `str.lower()` on the ASCII range, which covers every
keyword the source compares against. -/
def lowerStr (t : Text) : Text := t.map Char.toLower

/-- `containsSub needle hay` models Python's substring test `needle in hay`. -/
def containsSub (needle : Text) : Text → Bool
  | [] => needle.isEmpty
  | c :: rest => needle.isPrefixOf (c :: rest) || containsSub needle rest

/-- Python `str.split()` word count (maximal runs of non-whitespace), used
only to state the spec's `wordCount(text)`-based cost formula. -/
def wordCountAux : Bool → Text → Nat
  | _, [] => 0
  | inWord, c :: rest =>
    if c.isWhitespace then wordCountAux false rest
    else (if inWord then 0 else 1) + wordCountAux true rest

/-- Modelled from the spec: `wordCount(text)`, the number of
whitespace-separated words, used by the spec's execution-cost formula
(the repository code itself never counts words). -/
def wordCountSpec (t : Text) : Nat := wordCountAux false t

-- Keyword constants appearing literally in the source.
def kwOverride : Text := "override".data
def kwDelete : Text := "delete".data
def kwRmRf : Text := "rm -rf".data
def kwPing : Text := "ping".data
def kwCurl : Text := "curl".data
def kwConnect : Text := "connect".data
def kwFlood : Text := "flood".data
def kwStress : Text := "stress".data
def kwDef : Text := "def ".data
def kwImport : Text := "import ".data
def kwClass : Text := "class ".data
def kwWhileTrue : Text := "while true".data
def kwRecursion : Text := "recursion".data
def kwLimit : Text := "limit".data
def kwForkBomb : Text := "fork bomb".data
def kwSystem : Text := "system".data
def patIgnore : Text := "ignore previous instructions".data
def patActAs : Text := "act as".data
def patYouAreNow : Text := "you are now".data
def patAlphaMode : Text := "alpha mode".data
def patDeveloperMode : Text := "developer mode".data
def msgOk : Text := "OK".data
def msgSplitToken : Text := "Split-Token Keyword Detected".data

/-- The `ProfileType` enumeration of the source. -/
inductive ProfileType
  | neutral
  | fluid
  | rigid
  | sandbox
  | kinetic
deriving DecidableEq

/-- Handling capacity `H_a`, the second component of each enum value. -/
def capacityOf : ProfileType → ℚ
  | .neutral => 10
  | .fluid => 40
  | .rigid => 80
  | .sandbox => 20
  | .kinetic => 0

/-- Distance from Neutral, the third component of each enum value. -/
def distanceFromNeutral : ProfileType → ℚ
  | .neutral => 0
  | .fluid => 1
  | .rigid => 2
  | .sandbox => 3
  | .kinetic => 10

/-- The `TRANSITION_COSTS` dictionary: a partial map on ordered pairs. -/
def transitionCostTable : ProfileType → ProfileType → Option ℚ
  | .neutral, .fluid => some 5
  | .neutral, .rigid => some 10
  | .fluid, .rigid => some 15
  | .rigid, .fluid => some 15
  | .fluid, .sandbox => some 20
  | .rigid, .sandbox => some 25
  | .sandbox, .kinetic => some 1000
  | _, _ => none

/-! ## ThreatMonitor.detect_obfuscation

Embedding of the regex `[A-Za-z0-9+/]{20,}={0,2}`, `re.findall`,
`base64.b64decode` and `bytes.decode('utf-8')` on the produced tokens,
and `str.replace`. -/

/-- Membership in the regex character class `[A-Za-z0-9+/]`. -/
def isB64Char (c : Char) : Bool := c.isAlphanum || c == '+' || c == '/'

/-- Length of the maximal prefix run of base64-class characters. -/
def b64RunLen : Text → Nat
  | [] => 0
  | c :: rest => if isB64Char c then b64RunLen rest + 1 else 0

/-- The `={0,2}` tail: up to two `=` characters taken greedily. -/
def eqPad : Text → Text
  | '=' :: '=' :: _ => ['=', '=']
  | '=' :: _ => ['=']
  | _ => []

/-- Fueled worker for `findB64Tokens`; the fuel is an upper bound on the
number of characters left, so `fuel = length` is always enough. -/
def findB64TokensAux : Nat → Text → List Text
  | 0, _ => []
  | _ + 1, [] => []
  | fuel + 1, c :: rest =>
    let n := b64RunLen (c :: rest)
    if 20 ≤ n then
      let run := (c :: rest).take n
      let eqs := eqPad ((c :: rest).drop n)
      (run ++ eqs) :: findB64TokensAux fuel ((c :: rest).drop (n + eqs.length))
    else
      findB64TokensAux fuel rest

/-- `re.findall(r'[A-Za-z0-9+/]{20,}={0,2}', text)`: the greedy,
non-overlapping, left-to-right matches of the base64 token pattern. -/
def findB64Tokens (t : Text) : List Text := findB64TokensAux t.length t

/-- Value of a character in the standard base64 alphabet. -/
def b64Val (c : Char) : Option Nat :=
  if 'A' ≤ c ∧ c ≤ 'Z' then some (c.toNat - 'A'.toNat)
  else if 'a' ≤ c ∧ c ≤ 'z' then some (c.toNat - 'a'.toNat + 26)
  else if '0' ≤ c ∧ c ≤ '9' then some (c.toNat - '0'.toNat + 52)
  else if c = '+' then some 62
  else if c = '/' then some 63
  else none

/-- Full quads of 6-bit values to bytes (3 bytes per quad). -/
def b64Quads : List Nat → List Nat
  | v0 :: v1 :: v2 :: v3 :: rest =>
    (v0 * 4 + v1 / 16) :: ((v1 % 16) * 16 + v2 / 4) :: ((v2 % 4) * 64 + v3) :: b64Quads rest
  | _ => []

/-- Bytes recovered from a padded final group of 2 or 3 values. -/
def b64Leftover : List Nat → List Nat
  | [v0, v1] => [v0 * 4 + v1 / 16]
  | [v0, v1, v2] => [v0 * 4 + v1 / 16, (v1 % 16) * 16 + v2 / 4]
  | _ => []

/-- `base64.b64decode` on a token of the regex's shape (alphabet characters
then at most two `=`): succeeds when the data length is `0 mod 4`, or
`2 mod 4` with two pads, or `3 mod 4` with a pad, exactly the acceptance
of CPython's non-strict `binascii.a2b_base64` on such tokens. -/
def b64decodeBytes (s : Text) : Option (List Nat) :=
  let data := s.takeWhile (fun c => c != '=')
  let pads := ((s.drop data.length).filter (fun c => c == '=')).length
  (data.mapM b64Val).bind (fun vals =>
    let n := vals.length
    let r := n % 4
    if r = 0 ∨ (r = 2 ∧ 2 ≤ pads) ∨ (r = 3 ∧ 1 ≤ pads) then
      some (b64Quads (vals.take (n - r)) ++ b64Leftover (vals.drop (n - r)))
    else none)

/-- Strict UTF-8 decoding of a byte list (Python `bytes.decode('utf-8')`):
rejects continuation errors, overlong forms, surrogates and values above
U+10FFFF. -/
def utf8Decode : List Nat → Option (List Char)
  | [] => some []
  | b :: rest =>
    if b < 0x80 then (utf8Decode rest).map (fun cs => Char.ofNat b :: cs)
    else if b < 0xC2 then none
    else if b < 0xE0 then
      match rest with
      | b2 :: rest2 =>
        if 0x80 ≤ b2 ∧ b2 < 0xC0 then
          (utf8Decode rest2).map (fun cs => Char.ofNat ((b - 0xC0) * 64 + (b2 - 0x80)) :: cs)
        else none
      | [] => none
    else if b < 0xF0 then
      match rest with
      | b2 :: b3 :: rest2 =>
        let lo2 := if b = 0xE0 then 0xA0 else 0x80
        let hi2 := if b = 0xED then 0xA0 else 0xC0
        if lo2 ≤ b2 ∧ b2 < hi2 ∧ 0x80 ≤ b3 ∧ b3 < 0xC0 then
          (utf8Decode rest2).map
            (fun cs => Char.ofNat ((b - 0xE0) * 4096 + (b2 - 0x80) * 64 + (b3 - 0x80)) :: cs)
        else none
      | _ => none
    else if b < 0xF5 then
      match rest with
      | b2 :: b3 :: b4 :: rest2 =>
        let lo2 := if b = 0xF0 then 0x90 else 0x80
        let hi2 := if b = 0xF4 then 0x90 else 0xC0
        if lo2 ≤ b2 ∧ b2 < hi2 ∧ 0x80 ≤ b3 ∧ b3 < 0xC0 ∧ 0x80 ≤ b4 ∧ b4 < 0xC0 then
          (utf8Decode rest2).map
            (fun cs =>
              Char.ofNat
                ((b - 0xF0) * 262144 + (b2 - 0x80) * 4096 + (b3 - 0x80) * 64 + (b4 - 0x80)) :: cs)
        else none
      | _ => none
    else none

/-- `base64.b64decode(tok).decode('utf-8')`: the whole per-token attempt of
the source's `try` block. -/
def decodeToken (tok : Text) : Option Text := (b64decodeBytes tok).bind utf8Decode

/-- Fueled worker for `replaceAll`; each step consumes at least one
character of the haystack, so `fuel = length` is always enough. -/
def replaceAllAux (target repl : Text) : Nat → Text → Text
  | 0, hay => hay
  | _ + 1, [] => []
  | fuel + 1, c :: rest =>
    if target ≠ [] ∧ target.isPrefixOf (c :: rest) then
      repl ++ replaceAllAux target repl fuel ((c :: rest).drop target.length)
    else c :: replaceAllAux target repl fuel rest

/-- Python `hay.replace(target, repl)`: every non-overlapping occurrence,
left to right.  (The source only ever calls it with a token of length at
least 20, so the empty-target corner of Python is irrelevant; here an empty
target leaves the haystack unchanged.) -/
def replaceAll (target repl hay : Text) : Text := replaceAllAux target repl hay.length hay

/-- `ThreatMonitor.detect_obfuscation`: finds base64-shaped tokens; if none
are present returns `(False, text)`; otherwise substitutes every token that
decodes (failures are swallowed by the bare `except`) and returns `True`
together with the partially substituted text. -/
def detect_obfuscation (text : Text) : Bool × Text :=
  let found := findB64Tokens text
  if found = [] then (false, text)
  else
    (true,
      found.foldl
        (fun acc m =>
          match decodeToken m with
          | some d => replaceAll m d acc
          | none => acc)
        text)

/-! ## ThreatMonitor.scan_ast_structure

The call into Python's `ast.parse` is an oracle parameter (`PyParse`); the
repository's own walk over the resulting tree — flagging any `BinOp(Add)`
whose two operands are constants whose stringified concatenation contains
"system" or "override" — is embedded over a minimal tree type. -/

/-- Minimal model of the Python AST nodes the walk distinguishes:
constants (carrying their `str(value)` rendering), `BinOp` with `Add`, and
every other node kind with its children. -/
inductive PyNode
  | constant (s : Text)
  | binAdd (l r : PyNode)
  | node (children : List PyNode)

/-- The oracle type standing for `ast.parse`: `none` models a
`SyntaxError`, `some nodes` a parsed tree given by its walked node list. -/
abbrev PyParse := Text → Option (List PyNode)

/-- Does this `BinOp(Add)` of two constants smuggle a blocked keyword? -/
def splitTokenHit : PyNode → Bool
  | .binAdd (.constant s1) (.constant s2) =>
    containsSub kwSystem (s1 ++ s2) || containsSub kwOverride (s1 ++ s2)
  | _ => false

mutual

/-- Walk of one tree: the node itself and, recursively, its children. -/
def astFlag : PyNode → Bool
  | .constant _ => false
  | .binAdd l r => splitTokenHit (.binAdd l r) || astFlag l || astFlag r
  | .node cs => astFlagList cs

/-- Walk of a list of trees (the children of a node, or a module body). -/
def astFlagList : List PyNode → Bool
  | [] => false
  | c :: rest => astFlag c || astFlagList rest

end

/-- `ThreatMonitor.scan_ast_structure`: a `SyntaxError` is silently
ignored (prose is expected to fail the parse); otherwise the walk above. -/
def scan_ast_structure (parse : PyParse) (text : Text) : Bool × Text :=
  match parse text with
  | none => (false, msgOk)
  | some nodes =>
    if astFlagList nodes then (true, msgSplitToken)
    else (false, msgOk)

/-- `ThreatMonitor.check_logic_bomb`: additive phrase scoring over the
lowered text, flagged strictly above 40. -/
def check_logic_bomb (text : Text) : Bool :=
  let t := lowerStr text
  let score :=
    (if containsSub kwWhileTrue t then 50 else 0) +
    (if containsSub kwRecursion t ∧ ¬ containsSub kwLimit t then 30 else 0) +
    (if containsSub kwForkBomb t then 100 else 0)
  decide (40 < score)

/-- `ThreatMonitor.check_prompt_injection`: case-insensitive search for any
of the five fixed jailbreak phrases (none contains a regex metacharacter,
so `re.search(p, text, IGNORECASE)` is substring search on lowered text). -/
def check_prompt_injection (text : Text) : Bool :=
  [patIgnore, patActAs, patYouAreNow, patAlphaMode, patDeveloperMode].any
    (fun p => containsSub p (lowerStr text))

/-- `ThreatMonitor.score_entropy_noise`: Shannon entropy in bits per
character of the character-frequency distribution; `0.0` on empty text. -/
noncomputable def score_entropy_noise (text : Text) : ℝ :=
  if text = [] then 0
  else
    -∑ c ∈ text.toFinset,
      ((text.count c : ℝ) / text.length) * Real.logb 2 ((text.count c : ℝ) / text.length)

/-! ## HelicalEngine -/

/-- The mutable fields of `HelicalEngine` (its session state).  Python
floats are modelled as exact reals. -/
structure EngineState where
  reserves : ℝ
  inertia : ℝ
  currentProfile : ProfileType
  anchorProfile : ProfileType
  isSanctuary : Bool

/-- The distinct exit paths of `process_input` (the source communicates
them through prints and bare returns; one tag per return site). -/
inductive Outcome
  | rejectedLocked
  | astLock
  | logicBombLock
  | bankruptLock
  | insolvent
  | executed
deriving DecidableEq

/-- `HelicalEngine._trigger_sanctuary`: mark locked and zero the inertia
(reserves and profile fields untouched). -/
def trigger_sanctuary (s : EngineState) : EngineState :=
  { s with isSanctuary := true, inertia := 0 }

/-- `HelicalEngine._classify_vector`: the ordered keyword cascade on the
lowered text, returning the target profile and its base cost `H_rival`. -/
def classify_vector (text : Text) : ProfileType × ℚ :=
  let t := lowerStr text
  if containsSub kwOverride t || containsSub kwDelete t || containsSub kwRmRf t then
    (.kinetic, 1000)
  else if containsSub kwPing t || containsSub kwCurl t || containsSub kwConnect t then
    if containsSub kwFlood t || containsSub kwStress t then (.kinetic, 1000)
    else (.sandbox, 50)
  else if containsSub kwDef t || containsSub kwImport t || containsSub kwClass t then
    (.rigid, 30)
  else (.fluid, 10)

/-- `HelicalEngine._calculate_existence_potential` (Equation 1):
`E_a = Q * ((H_a + R_a) / H_rival)` with `H_rival` floored to `0.1` when
non-positive.  `capacity` and `reserves` are those of the passed state. -/
noncomputable def existence_potential (s : EngineState) (q : ℝ) (hRival : ℚ) : ℝ :=
  let h : ℚ := if hRival ≤ 0 then 1 / 10 else hRival
  q * (((capacityOf s.currentProfile : ℝ) + s.reserves) / (h : ℝ))

/-- `HelicalEngine._manage_inertia_physics`: accretion on a same-profile
call, otherwise a transition burning `baseCost + driftPenalty` from the
inertia, or sanctuary on inertial bankruptcy.  Returns the updated state
and the Python method's boolean. -/
noncomputable def manage_inertia (s : EngineState) (target : ProfileType) (eA : ℝ) :
    EngineState × Bool :=
  if target = s.currentProfile then
    ({ s with inertia := s.inertia + (if eA > 0.5 then Real.log eA else -2) }, true)
  else
    let base : ℚ := (transitionCostTable s.currentProfile target).getD 50
    let drift : ℚ := |distanceFromNeutral target - distanceFromNeutral s.anchorProfile| * 5
    let burn : ℝ := (base : ℝ) + (drift : ℝ)
    if s.inertia ≥ burn then
      ({ s with inertia := s.inertia - burn, currentProfile := target }, true)
    else (trigger_sanctuary s, false)

/-- Phases 2–5 of `HelicalEngine.process_input` (physics calculation,
inertial management, solvency verification, execution), taken from the
state `s1` left by the threat-detection phase with quality factor `q2` and
cleaned text `clear`. -/
noncomputable def physics_phase (s1 : EngineState) (q2 : ℝ) (clear : Text) :
    EngineState × Outcome :=
  let target := (classify_vector clear).1
  let hRival := (classify_vector clear).2
  let eA := existence_potential s1 q2 hRival
  let m := manage_inertia s1 target eA
  if m.2 = false then (m.1, Outcome.bankruptLock)
  else if (hRival : ℝ) > m.1.reserves then (m.1, Outcome.insolvent)
  else ({ m.1 with reserves := m.1.reserves - (hRival : ℝ) }, Outcome.executed)

/-- `HelicalEngine.process_input`: the full pipeline, parameterised by the
`ast.parse` oracle.  Returns the updated session state and the exit path
taken. -/
noncomputable def process_input (parse : PyParse) (s : EngineState) (input : Text) :
    EngineState × Outcome :=
  if s.isSanctuary then (s, Outcome.rejectedLocked)
  else
    let obf := detect_obfuscation input
    let clear := obf.2
    let q0 : ℝ := if obf.1 then 0.5 else 1.0
    if (scan_ast_structure parse clear).1 then (trigger_sanctuary s, Outcome.astLock)
    else if check_logic_bomb clear then (trigger_sanctuary s, Outcome.logicBombLock)
    else
      let s1 := if check_prompt_injection clear then { s with inertia := s.inertia - 10 } else s
      let q1 : ℝ := if check_prompt_injection clear then 0.1 else q0
      let q2 : ℝ := if score_entropy_noise clear > 5.8 then 0.05 else q1
      physics_phase s1 q2 clear

/-- A whole session: fold `process_input` over a list of inputs, keeping
only the evolving state. -/
noncomputable def run_inputs (parse : PyParse) (s : EngineState) (inputs : List Text) :
    EngineState :=
  inputs.foldl (fun st t => (process_input parse st t).1) s

/-! ## Spec-side definitions

These follow the spec's wording, for comparison with the embedded code. -/

/-- Modelled from the spec: the profile-to-profile distance implied by the
data model (each profile carries a scalar distance from Neutral), so that
`distance(p, q)` is the absolute difference of the two scalars. -/
def profileDistSpec (p q : ProfileType) : ℚ :=
  |distanceFromNeutral p - distanceFromNeutral q|

/-- Modelled from the spec: the drift penalty of claim C3,
`|distance(target, anchor) - distance(current, anchor)| * driftWeight`
with the source's drift weight `5.0`. -/
def driftPenaltySpec (current target anchor : ProfileType) : ℚ :=
  |profileDistSpec target anchor - profileDistSpec current anchor| * 5

/-- Modelled from the spec: `detectObfuscation`'s boolean as claim C4
states it — true exactly when at least one base64-shaped candidate token
decoded successfully. -/
def obfuscationFoundSpec (text : Text) : Bool :=
  (findB64Tokens text).any (fun m => (decodeToken m).isSome)

/-- Modelled from the spec: the quality multiplier `Q` of one call
(§4.4), equal to the source's sequential overwrites of `q_factor`:
the entropy breach wins over injection, which wins over obfuscation. -/
noncomputable def quality_factor (isObf : Bool) (clear : Text) : ℝ :=
  if score_entropy_noise clear > 5.8 then 0.05
  else if check_prompt_injection clear then 0.1
  else if isObf then 0.5 else 1.0

/-- Modelled from the spec: the existence-potential formula of claim C7,
`E = Q * (capacity(currentProfile) + reserves) / max(baseCost, ε)` with
`ε = 0.1`. -/
noncomputable def existence_potential_spec (s : EngineState) (q : ℝ) (c : ℚ) : ℝ :=
  q * (((capacityOf s.currentProfile : ℝ) + s.reserves) / max (c : ℝ) 0.1)

/-- The `ast.parse` oracle used for the concrete sessions below.  Every
concrete input exercised here either parses to a Python tree containing no
`BinOp(Add)` of two constants, or fails to parse; in both cases only the
resulting false flag reaches the engine, modelled by an empty node list. -/
def pyParseStub : PyParse := fun _ => some []

/-- A rich session: reserves 2000, inertia 200, anchored at Neutral. -/
noncomputable def sessionRich : EngineState :=
  ⟨2000, 200, ProfileType.neutral, ProfileType.neutral, false⟩

/-- The demonstration session of the source: reserves 100, inertia 10. -/
noncomputable def sessionDefault : EngineState :=
  ⟨100, 10, ProfileType.neutral, ProfileType.neutral, false⟩

/-- A session with high inertia but almost empty reserves. -/
noncomputable def sessionPoor : EngineState :=
  ⟨5, 50, ProfileType.neutral, ProfileType.neutral, false⟩

/-- A session currently in the Fluid profile. -/
noncomputable def sessionFluid : EngineState :=
  ⟨100, 5, ProfileType.fluid, ProfileType.neutral, false⟩

/-- A Fluid-profile session with inertia 30, for transition accounting. -/
noncomputable def sessionDrift : EngineState :=
  ⟨100, 30, ProfileType.fluid, ProfileType.neutral, false⟩

/-- An already-locked session with nonzero ledger values. -/
noncomputable def sessionLockedEx : EngineState :=
  ⟨7, 3, ProfileType.fluid, ProfileType.neutral, true⟩

/-! ## Basic lemmas about the embedded operations -/

theorem classify_vector_cost_ge (t : Text) : 10 ≤ (classify_vector t).2 := by
  unfold classify_vector
  dsimp only
  split_ifs <;> norm_num

theorem classify_vector_cost_pos (t : Text) : 0 < (classify_vector t).2 :=
  lt_of_lt_of_le (by norm_num) (classify_vector_cost_ge t)

theorem trigger_sanctuary_reserves (s : EngineState) :
    (trigger_sanctuary s).reserves = s.reserves := rfl

theorem trigger_sanctuary_inertia (s : EngineState) :
    (trigger_sanctuary s).inertia = 0 := rfl

theorem trigger_sanctuary_locked (s : EngineState) :
    (trigger_sanctuary s).isSanctuary = true := rfl

theorem manage_inertia_reserves (s : EngineState) (p : ProfileType) (e : ℝ) :
    ((manage_inertia s p e).1).reserves = s.reserves := by
  unfold manage_inertia
  dsimp only
  split_ifs <;> rfl

theorem manage_inertia_sanctuary_of_ok (s : EngineState) (p : ProfileType) (e : ℝ)
    (h : (manage_inertia s p e).2 = true) :
    ((manage_inertia s p e).1).isSanctuary = s.isSanctuary := by
  unfold manage_inertia at h ⊢
  dsimp only at h ⊢
  split_ifs at h ⊢ <;> rfl

theorem manage_inertia_of_fail (s : EngineState) (p : ProfileType) (e : ℝ)
    (h : (manage_inertia s p e).2 = false) :
    (manage_inertia s p e).1 = trigger_sanctuary s := by
  unfold manage_inertia at h ⊢
  dsimp only at h ⊢
  split_ifs at h ⊢ <;> rfl

theorem process_input_locked (parse : PyParse) (s : EngineState) (t : Text)
    (h : s.isSanctuary = true) :
    process_input parse s t = (s, Outcome.rejectedLocked) := by
  unfold process_input
  rw [h]
  simp

theorem run_inputs_locked (parse : PyParse) (s : EngineState) (ts : List Text)
    (h : s.isSanctuary = true) :
    run_inputs parse s ts = s := by
  induction ts with
  | nil => rfl
  | cons t ts ih =>
    unfold run_inputs
    rw [List.foldl_cons, process_input_locked parse s t h]
    exact ih

theorem process_input_ast_lock (parse : PyParse) (s : EngineState) (t : Text)
    (hs : s.isSanctuary = false)
    (hast : (scan_ast_structure parse (detect_obfuscation t).2).1 = true) :
    process_input parse s t = (trigger_sanctuary s, Outcome.astLock) := by
  simp only [process_input]
  rw [if_neg (by simp [hs]), if_pos hast]

theorem process_input_logic_bomb_lock (parse : PyParse) (s : EngineState) (t : Text)
    (hs : s.isSanctuary = false)
    (hast : (scan_ast_structure parse (detect_obfuscation t).2).1 = false)
    (hlb : check_logic_bomb (detect_obfuscation t).2 = true) :
    process_input parse s t = (trigger_sanctuary s, Outcome.logicBombLock) := by
  simp only [process_input]
  rw [if_neg (by simp [hs]), if_neg (by simp [hast]), if_pos hlb]

theorem process_input_eq_physics (parse : PyParse) (s : EngineState) (t : Text)
    (hs : s.isSanctuary = false)
    (hast : (scan_ast_structure parse (detect_obfuscation t).2).1 = false)
    (hlb : check_logic_bomb (detect_obfuscation t).2 = false) :
    process_input parse s t =
      physics_phase
        (if check_prompt_injection (detect_obfuscation t).2 then
          { s with inertia := s.inertia - 10 } else s)
        (if score_entropy_noise (detect_obfuscation t).2 > 5.8 then 0.05
         else if check_prompt_injection (detect_obfuscation t).2 then 0.1
         else if (detect_obfuscation t).1 then 0.5 else 1.0)
        (detect_obfuscation t).2 := by
  simp only [process_input]
  rw [if_neg (by simp [hs]), if_neg (by simp [hast]), if_neg (by simp [hlb])]

/-- Reserves of the threat-phase state equal those of the entry state. -/
theorem inj_state_reserves (s : EngineState) (clear : Text) :
    (if check_prompt_injection clear then
      { s with inertia := s.inertia - 10 } else s).reserves = s.reserves := by
  split_ifs <;> rfl

theorem inj_state_sanctuary (s : EngineState) (clear : Text) :
    (if check_prompt_injection clear then
      { s with inertia := s.inertia - 10 } else s).isSanctuary = s.isSanctuary := by
  split_ifs <;> rfl

theorem physics_phase_reserves (s1 : EngineState) (q : ℝ) (clear : Text) :
    (physics_phase s1 q clear).1.reserves ≤ s1.reserves ∧
      (0 ≤ s1.reserves → 0 ≤ (physics_phase s1 q clear).1.reserves) := by
  unfold physics_phase
  dsimp only
  have hres := manage_inertia_reserves s1 (classify_vector clear).1
      (existence_potential s1 q (classify_vector clear).2)
  have hfail := manage_inertia_of_fail s1 (classify_vector clear).1
      (existence_potential s1 q (classify_vector clear).2)
  generalize hM : manage_inertia s1 (classify_vector clear).1
      (existence_potential s1 q (classify_vector clear).2) = M at hres hfail ⊢
  obtain ⟨m1, m2⟩ := M
  dsimp only at hres hfail ⊢
  have hpos : (0 : ℝ) < ((classify_vector clear).2 : ℝ) := by
    exact_mod_cast classify_vector_cost_pos clear
  split_ifs with hm hc <;> dsimp only
  · rw [hfail hm, trigger_sanctuary_reserves]
    exact ⟨le_refl _, fun h => h⟩
  · rw [hres]
    exact ⟨le_refl _, fun h => h⟩
  · rw [not_lt, hres] at hc
    rw [hres]
    exact ⟨by linarith, fun h => by linarith⟩

theorem physics_phase_bankrupt (s1 : EngineState) (q : ℝ) (clear : Text)
    (h : (physics_phase s1 q clear).2 = Outcome.bankruptLock) :
    (physics_phase s1 q clear).1 = trigger_sanctuary s1 := by
  unfold physics_phase at h ⊢
  dsimp only at h ⊢
  have hfail := manage_inertia_of_fail s1 (classify_vector clear).1
      (existence_potential s1 q (classify_vector clear).2)
  generalize hM : manage_inertia s1 (classify_vector clear).1
      (existence_potential s1 q (classify_vector clear).2) = M at hfail h ⊢
  obtain ⟨m1, m2⟩ := M
  dsimp only at hfail h ⊢
  split_ifs at h ⊢ with hm hc <;> dsimp only at h ⊢
  exact hfail hm

theorem physics_phase_not_bankrupt (s1 : EngineState) (q : ℝ) (clear : Text)
    (h : (physics_phase s1 q clear).2 ≠ Outcome.bankruptLock) :
    (physics_phase s1 q clear).1.isSanctuary = s1.isSanctuary := by
  unfold physics_phase at h ⊢
  dsimp only at h ⊢
  have hok := manage_inertia_sanctuary_of_ok s1 (classify_vector clear).1
      (existence_potential s1 q (classify_vector clear).2)
  generalize hM : manage_inertia s1 (classify_vector clear).1
      (existence_potential s1 q (classify_vector clear).2) = M at hok h ⊢
  obtain ⟨m1, m2⟩ := M
  dsimp only at hok h ⊢
  split_ifs at h ⊢ with hm hc <;> dsimp only at h ⊢
  · exact absurd rfl h
  · exact hok (by rwa [Bool.not_eq_false] at hm)
  · exact hok (by rwa [Bool.not_eq_false] at hm)

theorem physics_phase_insolvent (s1 : EngineState) (q : ℝ) (clear : Text)
    (h : (physics_phase s1 q clear).2 = Outcome.insolvent) :
    (physics_phase s1 q clear).1.reserves = s1.reserves ∧
      (physics_phase s1 q clear).1.isSanctuary = s1.isSanctuary ∧
      ((classify_vector clear).2 : ℝ) > s1.reserves := by
  unfold physics_phase at h ⊢
  dsimp only at h ⊢
  have hres := manage_inertia_reserves s1 (classify_vector clear).1
      (existence_potential s1 q (classify_vector clear).2)
  have hok := manage_inertia_sanctuary_of_ok s1 (classify_vector clear).1
      (existence_potential s1 q (classify_vector clear).2)
  generalize hM : manage_inertia s1 (classify_vector clear).1
      (existence_potential s1 q (classify_vector clear).2) = M at hres hok h ⊢
  obtain ⟨m1, m2⟩ := M
  dsimp only at hres hok h ⊢
  split_ifs at h ⊢ with hm hc <;> dsimp only at h ⊢
  exact ⟨hres, hok (by rwa [Bool.not_eq_false] at hm), hres ▸ hc⟩

theorem physics_phase_executed (s1 : EngineState) (q : ℝ) (clear : Text)
    (h : (physics_phase s1 q clear).2 = Outcome.executed) :
    (physics_phase s1 q clear).1.reserves =
      s1.reserves - ((classify_vector clear).2 : ℝ) := by
  unfold physics_phase at h ⊢
  dsimp only at h ⊢
  have hres := manage_inertia_reserves s1 (classify_vector clear).1
      (existence_potential s1 q (classify_vector clear).2)
  generalize hM : manage_inertia s1 (classify_vector clear).1
      (existence_potential s1 q (classify_vector clear).2) = M at hres h ⊢
  obtain ⟨m1, m2⟩ := M
  dsimp only at hres h ⊢
  split_ifs at h ⊢ with hm hc <;> dsimp only at h ⊢
  rw [hres]

theorem process_input_reserves (parse : PyParse) (s : EngineState) (t : Text) :
    (process_input parse s t).1.reserves ≤ s.reserves ∧
      (0 ≤ s.reserves → 0 ≤ (process_input parse s t).1.reserves) := by
  by_cases hs : s.isSanctuary = true
  · rw [process_input_locked parse s t hs]
    exact ⟨le_refl _, fun h => h⟩
  rw [Bool.not_eq_true] at hs
  by_cases hast : (scan_ast_structure parse (detect_obfuscation t).2).1 = true
  · rw [process_input_ast_lock parse s t hs hast]
    exact ⟨le_refl _, fun h => h⟩
  rw [Bool.not_eq_true] at hast
  by_cases hlb : check_logic_bomb (detect_obfuscation t).2 = true
  · rw [process_input_logic_bomb_lock parse s t hs hast hlb]
    exact ⟨le_refl _, fun h => h⟩
  rw [Bool.not_eq_true] at hlb
  rw [process_input_eq_physics parse s t hs hast hlb]
  have hp := physics_phase_reserves
    (if check_prompt_injection (detect_obfuscation t).2 then
      { s with inertia := s.inertia - 10 } else s)
    (if score_entropy_noise (detect_obfuscation t).2 > 5.8 then 0.05
     else if check_prompt_injection (detect_obfuscation t).2 then 0.1
     else if (detect_obfuscation t).1 then 0.5 else 1.0)
    (detect_obfuscation t).2
  rw [inj_state_reserves] at hp
  exact hp

theorem run_inputs_reserves (parse : PyParse) (s : EngineState) (ts : List Text) :
    (run_inputs parse s ts).reserves ≤ s.reserves ∧
      (0 ≤ s.reserves → 0 ≤ (run_inputs parse s ts).reserves) := by
  induction ts generalizing s with
  | nil => exact ⟨le_refl _, fun h => h⟩
  | cons t ts ih =>
    have hstep := process_input_reserves parse s t
    have htail := ih (process_input parse s t).1
    exact ⟨le_trans htail.1 hstep.1, fun h => htail.2 (hstep.2 h)⟩

theorem process_input_newly_locked_inertia (parse : PyParse) (s : EngineState) (t : Text)
    (hs : s.isSanctuary = false)
    (hlock : (process_input parse s t).1.isSanctuary = true) :
    (process_input parse s t).1.inertia = 0 := by
  by_cases hast : (scan_ast_structure parse (detect_obfuscation t).2).1 = true
  · rw [process_input_ast_lock parse s t hs hast]
    rfl
  rw [Bool.not_eq_true] at hast
  by_cases hlb : check_logic_bomb (detect_obfuscation t).2 = true
  · rw [process_input_logic_bomb_lock parse s t hs hast hlb]
    rfl
  rw [Bool.not_eq_true] at hlb
  rw [process_input_eq_physics parse s t hs hast hlb] at hlock ⊢
  by_cases hb : (physics_phase
      (if check_prompt_injection (detect_obfuscation t).2 then
        { s with inertia := s.inertia - 10 } else s)
      (if score_entropy_noise (detect_obfuscation t).2 > 5.8 then 0.05
       else if check_prompt_injection (detect_obfuscation t).2 then 0.1
       else if (detect_obfuscation t).1 then 0.5 else 1.0)
      (detect_obfuscation t).2).2 = Outcome.bankruptLock
  · rw [physics_phase_bankrupt _ _ _ hb]
    rfl
  · rw [physics_phase_not_bankrupt _ _ _ hb, inj_state_sanctuary, hs] at hlock
    exact absurd hlock (by simp)

theorem process_input_inertia_invariant (parse : PyParse) (s : EngineState) (t : Text)
    (hinv : s.isSanctuary = true → s.inertia = 0) :
    (process_input parse s t).1.isSanctuary = true →
      (process_input parse s t).1.inertia = 0 := by
  by_cases hs : s.isSanctuary = true
  · rw [process_input_locked parse s t hs]
    exact fun _ => hinv hs
  · rw [Bool.not_eq_true] at hs
    exact process_input_newly_locked_inertia parse s t hs

theorem run_inputs_inertia_invariant (parse : PyParse) (s : EngineState) (ts : List Text)
    (hinv : s.isSanctuary = true → s.inertia = 0) :
    (run_inputs parse s ts).isSanctuary = true → (run_inputs parse s ts).inertia = 0 := by
  induction ts generalizing s with
  | nil => exact hinv
  | cons t ts ih =>
    exact ih (process_input parse s t).1 (process_input_inertia_invariant parse s t hinv)

theorem process_input_insolvent_state (parse : PyParse) (s : EngineState) (t : Text)
    (h : (process_input parse s t).2 = Outcome.insolvent) :
    (process_input parse s t).1.reserves = s.reserves ∧
      (process_input parse s t).1.isSanctuary = false ∧
      ((classify_vector (detect_obfuscation t).2).2 : ℝ) > s.reserves := by
  by_cases hs : s.isSanctuary = true
  · rw [process_input_locked parse s t hs] at h
    exact absurd h (by simp)
  rw [Bool.not_eq_true] at hs
  by_cases hast : (scan_ast_structure parse (detect_obfuscation t).2).1 = true
  · rw [process_input_ast_lock parse s t hs hast] at h
    exact absurd h (by simp)
  rw [Bool.not_eq_true] at hast
  by_cases hlb : check_logic_bomb (detect_obfuscation t).2 = true
  · rw [process_input_logic_bomb_lock parse s t hs hast hlb] at h
    exact absurd h (by simp)
  rw [Bool.not_eq_true] at hlb
  rw [process_input_eq_physics parse s t hs hast hlb] at h ⊢
  have hp := physics_phase_insolvent _ _ _ h
  rw [inj_state_reserves, inj_state_sanctuary] at hp
  exact ⟨hp.1, hp.2.1.trans hs, hp.2.2⟩

theorem process_input_executed_reserves (parse : PyParse) (s : EngineState) (t : Text)
    (h : (process_input parse s t).2 = Outcome.executed) :
    (process_input parse s t).1.reserves =
      s.reserves - ((classify_vector (detect_obfuscation t).2).2 : ℝ) := by
  by_cases hs : s.isSanctuary = true
  · rw [process_input_locked parse s t hs] at h
    exact absurd h (by simp)
  rw [Bool.not_eq_true] at hs
  by_cases hast : (scan_ast_structure parse (detect_obfuscation t).2).1 = true
  · rw [process_input_ast_lock parse s t hs hast] at h
    exact absurd h (by simp)
  rw [Bool.not_eq_true] at hast
  by_cases hlb : check_logic_bomb (detect_obfuscation t).2 = true
  · rw [process_input_logic_bomb_lock parse s t hs hast hlb] at h
    exact absurd h (by simp)
  rw [Bool.not_eq_true] at hlb
  rw [process_input_eq_physics parse s t hs hast hlb] at h ⊢
  rw [physics_phase_executed _ _ _ h, inj_state_reserves]

/-! ## Evaluation lemmas for the two `_manage_inertia_physics` branches -/

theorem manage_inertia_alignment (s : EngineState) (target : ProfileType) (e : ℝ)
    (heq : target = s.currentProfile) :
    manage_inertia s target e =
      ({ s with inertia := s.inertia + (if e > 0.5 then Real.log e else -2) }, true) := by
  unfold manage_inertia
  rw [if_pos heq]

theorem manage_inertia_transition_eval (s : EngineState) (target : ProfileType) (e : ℝ)
    (hne : target ≠ s.currentProfile) :
    manage_inertia s target e =
      (if s.inertia ≥ ((transitionCostTable s.currentProfile target).getD 50 : ℝ) +
          ((|distanceFromNeutral target - distanceFromNeutral s.anchorProfile| * 5 : ℚ) : ℝ) then
        ({ s with
            inertia := s.inertia -
              (((transitionCostTable s.currentProfile target).getD 50 : ℝ) +
                ((|distanceFromNeutral target - distanceFromNeutral s.anchorProfile| * 5 : ℚ) : ℝ)),
            currentProfile := target }, true)
      else (trigger_sanctuary s, false)) := by
  unfold manage_inertia
  rw [if_neg hne]

theorem physics_phase_transition_eval (s1 : EngineState) (q : ℝ) (clear : Text)
    (hne : (classify_vector clear).1 ≠ s1.currentProfile) :
    physics_phase s1 q clear =
      (if s1.inertia ≥
          ((transitionCostTable s1.currentProfile (classify_vector clear).1).getD 50 : ℝ) +
          ((|distanceFromNeutral (classify_vector clear).1 -
              distanceFromNeutral s1.anchorProfile| * 5 : ℚ) : ℝ) then
        (if ((classify_vector clear).2 : ℝ) > s1.reserves then
          ({ s1 with
              inertia := s1.inertia -
                (((transitionCostTable s1.currentProfile (classify_vector clear).1).getD 50 : ℝ) +
                  ((|distanceFromNeutral (classify_vector clear).1 -
                      distanceFromNeutral s1.anchorProfile| * 5 : ℚ) : ℝ)),
              currentProfile := (classify_vector clear).1 }, Outcome.insolvent)
        else
          ({ s1 with
              reserves := s1.reserves - ((classify_vector clear).2 : ℝ),
              inertia := s1.inertia -
                (((transitionCostTable s1.currentProfile (classify_vector clear).1).getD 50 : ℝ) +
                  ((|distanceFromNeutral (classify_vector clear).1 -
                      distanceFromNeutral s1.anchorProfile| * 5 : ℚ) : ℝ)),
              currentProfile := (classify_vector clear).1 }, Outcome.executed))
      else (trigger_sanctuary s1, Outcome.bankruptLock)) := by
  unfold physics_phase
  dsimp only
  rw [manage_inertia_transition_eval s1 (classify_vector clear).1 _ hne]
  set B : ℝ := ((transitionCostTable s1.currentProfile (classify_vector clear).1).getD 50 : ℝ) +
      ((|distanceFromNeutral (classify_vector clear).1 -
          distanceFromNeutral s1.anchorProfile| * 5 : ℚ) : ℝ) with hB
  by_cases hb : s1.inertia ≥ B
  · rw [if_pos hb, if_pos hb]
    dsimp only
    rw [if_neg (by decide : ¬ (true = false))]
  · rw [if_neg hb, if_neg hb]
    dsimp only
    rw [if_pos rfl]

theorem physics_phase_inertia_alignment (s1 : EngineState) (q : ℝ) (clear : Text)
    (halign : (classify_vector clear).1 = s1.currentProfile) :
    (physics_phase s1 q clear).1.inertia =
      s1.inertia +
        (if existence_potential s1 q (classify_vector clear).2 > 0.5 then
          Real.log (existence_potential s1 q (classify_vector clear).2) else -2) := by
  unfold physics_phase
  dsimp only
  rw [manage_inertia_alignment s1 (classify_vector clear).1 _ halign]
  split_ifs with hb hc <;> rfl

/-- For the costs the classifier actually produces (all at least 10) the
source's `if h_rival <= 0` floor agrees with the spec's `max(baseCost, ε)`
with `ε = 0.1`. -/
theorem existence_potential_eq_spec (s1 : EngineState) (q : ℝ) (c : ℚ) (hc : 10 ≤ c) :
    existence_potential s1 q c = existence_potential_spec s1 q c := by
  unfold existence_potential existence_potential_spec
  dsimp only
  have h10 : (10 : ℝ) ≤ (c : ℝ) := by exact_mod_cast hc
  rw [if_neg (by linarith), max_eq_left (by linarith)]

theorem quality_factor_eq (isObf : Bool) (clear : Text) :
    (if score_entropy_noise clear > 5.8 then (0.05 : ℝ)
     else if check_prompt_injection clear then 0.1
     else if isObf then 0.5 else 1.0) = quality_factor isObf clear := rfl

theorem inj_state_current (s : EngineState) (clear : Text) :
    (if check_prompt_injection clear then
      { s with inertia := s.inertia - 10 } else s).currentProfile = s.currentProfile := by
  split_ifs <;> rfl

theorem inj_state_inertia (s : EngineState) (clear : Text) :
    (if check_prompt_injection clear then
      { s with inertia := s.inertia - 10 } else s).inertia =
      (if check_prompt_injection clear then s.inertia - 10 else s.inertia) := by
  split_ifs <;> rfl

theorem existence_potential_inj (s : EngineState) (clear : Text) (q : ℝ) (c : ℚ) :
    existence_potential
      (if check_prompt_injection clear then { s with inertia := s.inertia - 10 } else s) q c =
      existence_potential s q c := by
  unfold existence_potential
  rw [inj_state_current, inj_state_reserves]

/-! ## Concrete session evaluations -/

theorem run_override_rich :
    process_input pyParseStub sessionRich ("override".data) =
      (⟨1000, 100, ProfileType.kinetic, ProfileType.neutral, false⟩, Outcome.executed) := by
  have hobf : detect_obfuscation ("override".data) = (false, "override".data) := by decide
  have hast :
      (scan_ast_structure pyParseStub (detect_obfuscation ("override".data)).2).1 = false := by
    decide
  have hlb : check_logic_bomb (detect_obfuscation ("override".data)).2 = false := by decide
  have hinj : check_prompt_injection ("override".data) = false := by decide
  have hcl : classify_vector ("override".data) = (ProfileType.kinetic, 1000) := by decide
  rw [process_input_eq_physics pyParseStub sessionRich ("override".data) rfl hast hlb]
  rw [hobf]
  dsimp only
  rw [hinj]
  simp only [Bool.false_eq_true, if_false]
  rw [physics_phase_transition_eval sessionRich _ ("override".data) (by decide)]
  rw [hcl]
  dsimp only [sessionRich]
  norm_num [transitionCostTable, distanceFromNeutral, trigger_sanctuary,
    Option.getD, EngineState.mk.injEq, Prod.mk.injEq]

theorem run_override_default :
    process_input pyParseStub sessionDefault ("override".data) =
      (⟨100, 0, ProfileType.neutral, ProfileType.neutral, true⟩, Outcome.bankruptLock) := by
  have hobf : detect_obfuscation ("override".data) = (false, "override".data) := by decide
  have hast :
      (scan_ast_structure pyParseStub (detect_obfuscation ("override".data)).2).1 = false := by
    decide
  have hlb : check_logic_bomb (detect_obfuscation ("override".data)).2 = false := by decide
  have hinj : check_prompt_injection ("override".data) = false := by decide
  have hcl : classify_vector ("override".data) = (ProfileType.kinetic, 1000) := by decide
  rw [process_input_eq_physics pyParseStub sessionDefault ("override".data) rfl hast hlb]
  rw [hobf]
  dsimp only
  rw [hinj]
  simp only [Bool.false_eq_true, if_false]
  rw [physics_phase_transition_eval sessionDefault _ ("override".data) (by decide)]
  rw [hcl]
  dsimp only [sessionDefault]
  norm_num [transitionCostTable, distanceFromNeutral, trigger_sanctuary,
    Option.getD, EngineState.mk.injEq, Prod.mk.injEq]

theorem run_hello_default :
    process_input pyParseStub sessionDefault ("hello".data) =
      (⟨90, 0, ProfileType.fluid, ProfileType.neutral, false⟩, Outcome.executed) := by
  have hobf : detect_obfuscation ("hello".data) = (false, "hello".data) := by decide
  have hast :
      (scan_ast_structure pyParseStub (detect_obfuscation ("hello".data)).2).1 = false := by
    decide
  have hlb : check_logic_bomb (detect_obfuscation ("hello".data)).2 = false := by decide
  have hinj : check_prompt_injection ("hello".data) = false := by decide
  have hcl : classify_vector ("hello".data) = (ProfileType.fluid, 10) := by decide
  rw [process_input_eq_physics pyParseStub sessionDefault ("hello".data) rfl hast hlb]
  rw [hobf]
  dsimp only
  rw [hinj]
  simp only [Bool.false_eq_true, if_false]
  rw [physics_phase_transition_eval sessionDefault _ ("hello".data) (by decide)]
  rw [hcl]
  dsimp only [sessionDefault]
  norm_num [transitionCostTable, distanceFromNeutral, trigger_sanctuary,
    Option.getD, EngineState.mk.injEq, Prod.mk.injEq]

theorem run_hello_poor :
    process_input pyParseStub sessionPoor ("hello".data) =
      (⟨5, 40, ProfileType.fluid, ProfileType.neutral, false⟩, Outcome.insolvent) := by
  have hobf : detect_obfuscation ("hello".data) = (false, "hello".data) := by decide
  have hast :
      (scan_ast_structure pyParseStub (detect_obfuscation ("hello".data)).2).1 = false := by
    decide
  have hlb : check_logic_bomb (detect_obfuscation ("hello".data)).2 = false := by decide
  have hinj : check_prompt_injection ("hello".data) = false := by decide
  have hcl : classify_vector ("hello".data) = (ProfileType.fluid, 10) := by decide
  rw [process_input_eq_physics pyParseStub sessionPoor ("hello".data) rfl hast hlb]
  rw [hobf]
  dsimp only
  rw [hinj]
  simp only [Bool.false_eq_true, if_false]
  rw [physics_phase_transition_eval sessionPoor _ ("hello".data) (by decide)]
  rw [hcl]
  dsimp only [sessionPoor]
  norm_num [transitionCostTable, distanceFromNeutral, trigger_sanctuary,
    Option.getD, EngineState.mk.injEq, Prod.mk.injEq]

/-! ## Additional classifier lemma -/

theorem classify_fluid_cost (t : Text) (h : (classify_vector t).1 = ProfileType.fluid) :
    (classify_vector t).2 = 10 := by
  unfold classify_vector at h ⊢
  dsimp only at h ⊢
  split_ifs at h ⊢ <;> rfl

/-! ## Claims -/

/-- C1 (counterexample): classification to Kinetic does NOT always
hard-lock the session: with enough inertia and reserves the Kinetic call
commits an ordinary transition and executes, debiting reserves, so the
claimed unconditional `ERR_KINETIC_LOCK` with frozen reserves is false. -/
theorem c1_counterexample :
    (classify_vector (detect_obfuscation ("override".data)).2).1 = ProfileType.kinetic ∧
    (process_input pyParseStub sessionRich ("override".data)).2 = Outcome.executed ∧
    (process_input pyParseStub sessionRich ("override".data)).1.isSanctuary = false ∧
    (process_input pyParseStub sessionRich ("override".data)).1.reserves ≠
      sessionRich.reserves := by
  refine ⟨by decide, by rw [run_override_rich], by rw [run_override_rich], ?_⟩
  rw [run_override_rich]
  dsimp only [sessionRich]
  norm_num

/-- C1 (amended): for a call classified Kinetic (no prior lock, no AST or
logic-bomb flag, no injection penalty, current profile not already
Kinetic), the engine runs the ordinary transition step: when inertia is
below the Kinetic burn `baseCost + driftPenalty` the session locks through
inertial bankruptcy (inertia zeroed, reserves unchanged, generation never
reached); when inertia covers the burn the transition to Kinetic commits
and the session stays unlocked, so execution may proceed. -/
theorem c1_kinetic_via_transition (parse : PyParse) (s : EngineState) (t : Text)
    (hs : s.isSanctuary = false)
    (hast : (scan_ast_structure parse (detect_obfuscation t).2).1 = false)
    (hlb : check_logic_bomb (detect_obfuscation t).2 = false)
    (hinj : check_prompt_injection (detect_obfuscation t).2 = false)
    (hcl : (classify_vector (detect_obfuscation t).2).1 = ProfileType.kinetic)
    (hcur : s.currentProfile ≠ ProfileType.kinetic) :
    (s.inertia <
        ((transitionCostTable s.currentProfile ProfileType.kinetic).getD 50 : ℝ) +
          ((|distanceFromNeutral ProfileType.kinetic -
              distanceFromNeutral s.anchorProfile| * 5 : ℚ) : ℝ) →
      process_input parse s t = (trigger_sanctuary s, Outcome.bankruptLock)) ∧
    (s.inertia ≥
        ((transitionCostTable s.currentProfile ProfileType.kinetic).getD 50 : ℝ) +
          ((|distanceFromNeutral ProfileType.kinetic -
              distanceFromNeutral s.anchorProfile| * 5 : ℚ) : ℝ) →
      (process_input parse s t).1.isSanctuary = false ∧
        (process_input parse s t).1.currentProfile = ProfileType.kinetic) := by
  rw [process_input_eq_physics parse s t hs hast hlb]
  rw [hinj]
  simp only [Bool.false_eq_true, if_false]
  rw [physics_phase_transition_eval s _ (detect_obfuscation t).2
    (by rw [hcl]; exact fun hh => hcur hh.symm)]
  rw [hcl]
  constructor
  · intro hlt
    rw [if_neg (not_le.mpr hlt)]
  · intro hge
    rw [if_pos hge]
    split_ifs <;> exact ⟨hs, rfl⟩

/-- C1 (witness for the amended claim): the source's own demonstration
session (reserves 100, inertia 10) on input "override" locks through
inertial bankruptcy, with inertia zeroed and reserves untouched. -/
theorem c1_kinetic_via_transition_witness :
    check_prompt_injection (detect_obfuscation ("override".data)).2 = false ∧
    (classify_vector (detect_obfuscation ("override".data)).2).1 = ProfileType.kinetic ∧
    sessionDefault.inertia <
      ((transitionCostTable sessionDefault.currentProfile ProfileType.kinetic).getD 50 : ℝ) +
        ((|distanceFromNeutral ProfileType.kinetic -
            distanceFromNeutral sessionDefault.anchorProfile| * 5 : ℚ) : ℝ) ∧
    process_input pyParseStub sessionDefault ("override".data) =
      (trigger_sanctuary sessionDefault, Outcome.bankruptLock) := by
  have hlt : sessionDefault.inertia <
      ((transitionCostTable sessionDefault.currentProfile ProfileType.kinetic).getD 50 : ℝ) +
        ((|distanceFromNeutral ProfileType.kinetic -
            distanceFromNeutral sessionDefault.anchorProfile| * 5 : ℚ) : ℝ) := by
    norm_num [sessionDefault, transitionCostTable, distanceFromNeutral, Option.getD]
  exact ⟨by decide, by decide, hlt,
    (c1_kinetic_via_transition pyParseStub sessionDefault ("override".data) rfl
      (by decide) (by decide) (by decide) (by decide) (by decide)).1 hlt⟩

/-- C2 (counterexample): execution cost is not
`wordCount * perWordRate * profileMultiplier`: the one-word Fluid input
"hello" debits the fixed Fluid base cost 10, not `0.5 * 1`. -/
theorem c2_counterexample :
    (classify_vector (detect_obfuscation ("hello".data)).2).1 = ProfileType.fluid ∧
    wordCountSpec ("hello".data) = 1 ∧
    (process_input pyParseStub sessionDefault ("hello".data)).2 = Outcome.executed ∧
    sessionDefault.reserves -
        (process_input pyParseStub sessionDefault ("hello".data)).1.reserves ≠
      0.5 * (wordCountSpec ("hello".data) : ℝ) := by
  refine ⟨by decide, by decide, by rw [run_hello_default], ?_⟩
  rw [run_hello_default]
  have hw : wordCountSpec ("hello".data) = 1 := by decide
  rw [hw]
  dsimp only [sessionDefault]
  norm_num

/-- C2 (amended): the cost debited on execution is exactly the classified
profile's fixed base cost (in particular 10 for Fluid), independent of the
input's word count; reserves decrease by exactly that amount. -/
theorem c2_cost_is_profile_base (parse : PyParse) (s : EngineState) (t : Text)
    (h : (process_input parse s t).2 = Outcome.executed) :
    (process_input parse s t).1.reserves =
      s.reserves - ((classify_vector (detect_obfuscation t).2).2 : ℝ) ∧
    ((classify_vector (detect_obfuscation t).2).1 = ProfileType.fluid →
      (classify_vector (detect_obfuscation t).2).2 = 10) :=
  ⟨process_input_executed_reserves parse s t h, fun hf => classify_fluid_cost _ hf⟩

/-- C2 (witness): the executed "hello" call debits exactly the Fluid base
cost from the reserves. -/
theorem c2_cost_is_profile_base_witness :
    (process_input pyParseStub sessionDefault ("hello".data)).2 = Outcome.executed ∧
    (process_input pyParseStub sessionDefault ("hello".data)).1.reserves =
      sessionDefault.reserves -
        ((classify_vector (detect_obfuscation ("hello".data)).2).2 : ℝ) :=
  ⟨by rw [run_hello_default],
   (c2_cost_is_profile_base pyParseStub sessionDefault ("hello".data)
     (by rw [run_hello_default])).1⟩

/-- C3 (counterexample): the drift penalty ignores the current profile: a
Fluid-to-Rigid switch anchored at Neutral burns 15 + |2 - 0|*5 = 25, not
the claim's 15 + |2 - 1|*5 = 20. -/
theorem c3_counterexample :
    (manage_inertia sessionDrift ProfileType.rigid 1).1.inertia =
      sessionDrift.inertia - 25 ∧
    sessionDrift.inertia - 25 ≠
      sessionDrift.inertia -
        (((transitionCostTable sessionDrift.currentProfile ProfileType.rigid).getD 50 : ℝ) +
          (driftPenaltySpec sessionDrift.currentProfile ProfileType.rigid
              sessionDrift.anchorProfile : ℝ)) := by
  constructor
  · rw [manage_inertia_transition_eval sessionDrift ProfileType.rigid 1 (by decide)]
    rw [if_pos (by norm_num [sessionDrift, transitionCostTable, distanceFromNeutral])]
    dsimp only [sessionDrift]
    norm_num [transitionCostTable, distanceFromNeutral]
  · dsimp only [sessionDrift]
    norm_num [transitionCostTable, distanceFromNeutral, driftPenaltySpec, profileDistSpec]

/-- C3 (amended): a committed different-profile transition debits exactly
`baseCost + driftPenalty` where `baseCost` is the transition-table entry
for the ordered pair (current, target) with default 50, and `driftPenalty`
is `|distance(target) - distance(anchor)| * 5` — the target profile's
distance-from-Neutral against the anchor's, the current profile playing no
role in the drift term. -/
theorem c3_transition_debit (s : EngineState) (target : ProfileType) (e : ℝ)
    (hne : target ≠ s.currentProfile)
    (hge : s.inertia ≥ ((transitionCostTable s.currentProfile target).getD 50 : ℝ) +
        ((|distanceFromNeutral target - distanceFromNeutral s.anchorProfile| * 5 : ℚ) : ℝ)) :
    manage_inertia s target e =
      ({ s with
          inertia := s.inertia -
            (((transitionCostTable s.currentProfile target).getD 50 : ℝ) +
              ((|distanceFromNeutral target -
                  distanceFromNeutral s.anchorProfile| * 5 : ℚ) : ℝ)),
          currentProfile := target }, true) := by
  rw [manage_inertia_transition_eval s target e hne, if_pos hge]

/-- C3 (witness): the Fluid-to-Rigid switch with inertia 30 commits and
leaves inertia 30 - (15 + 10) = 5. -/
theorem c3_transition_debit_witness :
    ProfileType.rigid ≠ sessionDrift.currentProfile ∧
    sessionDrift.inertia ≥
      ((transitionCostTable sessionDrift.currentProfile ProfileType.rigid).getD 50 : ℝ) +
        ((|distanceFromNeutral ProfileType.rigid -
            distanceFromNeutral sessionDrift.anchorProfile| * 5 : ℚ) : ℝ) ∧
    (manage_inertia sessionDrift ProfileType.rigid 1).1.inertia =
      sessionDrift.inertia -
        (((transitionCostTable sessionDrift.currentProfile ProfileType.rigid).getD 50 : ℝ) +
          ((|distanceFromNeutral ProfileType.rigid -
              distanceFromNeutral sessionDrift.anchorProfile| * 5 : ℚ) : ℝ)) := by
  have hge : sessionDrift.inertia ≥
      ((transitionCostTable sessionDrift.currentProfile ProfileType.rigid).getD 50 : ℝ) +
        ((|distanceFromNeutral ProfileType.rigid -
            distanceFromNeutral sessionDrift.anchorProfile| * 5 : ℚ) : ℝ) := by
    norm_num [sessionDrift, transitionCostTable, distanceFromNeutral]
  refine ⟨by decide, hge, ?_⟩
  rw [c3_transition_debit sessionDrift ProfileType.rigid 1 (by decide) hge]

/-- C4 (counterexample): a base64-shaped token whose decode fails (21
repeated characters: data length 1 mod 4) still makes
`detect_obfuscation` return true while leaving the token unchanged, so the
claimed "true iff at least one token decoded successfully" is false. -/
theorem c4_counterexample :
    (detect_obfuscation (List.replicate 21 'a')).1 = true ∧
    obfuscationFoundSpec (List.replicate 21 'a') = false ∧
    (detect_obfuscation (List.replicate 21 'a')).2 = List.replicate 21 'a' := by
  decide

/-- C4 (amended): `detect_obfuscation`'s boolean is true iff at least one
base64-shaped candidate token occurs in the text — whether or not any
candidate decodes; failed candidates are merely left unchanged. -/
theorem c4_found_iff_candidate (text : Text) :
    (detect_obfuscation text).1 = true ↔ findB64Tokens text ≠ [] := by
  unfold detect_obfuscation
  dsimp only
  split_ifs with h <;> simp [h]

/-- C5: a locked session is frozen: any further call returns the state
unchanged (reserves, inertia and the lock flag keep their lock-time
values) with the locked rejection, and any sequence of further calls
leaves the state fixed. -/
theorem c5_locked_is_frozen (parse : PyParse) (s : EngineState) (t : Text) (ts : List Text)
    (h : s.isSanctuary = true) :
    process_input parse s t = (s, Outcome.rejectedLocked) ∧ run_inputs parse s ts = s :=
  ⟨process_input_locked parse s t h, run_inputs_locked parse s ts h⟩

/-- C5 (witness): a locked session with nonzero ledger values is returned
untouched. -/
theorem c5_locked_is_frozen_witness :
    sessionLockedEx.isSanctuary = true ∧
    process_input pyParseStub sessionLockedEx ("hello".data) =
      (sessionLockedEx, Outcome.rejectedLocked) ∧
    run_inputs pyParseStub sessionLockedEx [("hello".data)] = sessionLockedEx :=
  ⟨rfl,
   (c5_locked_is_frozen pyParseStub sessionLockedEx ("hello".data) [("hello".data)] rfl).1,
   (c5_locked_is_frozen pyParseStub sessionLockedEx ("hello".data) [("hello".data)] rfl).2⟩

/-- C6: starting from nonnegative reserves, one call and any sequence of
calls keep reserves nonnegative and never increase them. -/
theorem c6_reserves_nonneg_nonincreasing (parse : PyParse) (s : EngineState) (t : Text)
    (ts : List Text) (h : 0 ≤ s.reserves) :
    ((process_input parse s t).1.reserves ≤ s.reserves ∧
      0 ≤ (process_input parse s t).1.reserves) ∧
    ((run_inputs parse s ts).reserves ≤ s.reserves ∧
      0 ≤ (run_inputs parse s ts).reserves) :=
  ⟨⟨(process_input_reserves parse s t).1, (process_input_reserves parse s t).2 h⟩,
   ⟨(run_inputs_reserves parse s ts).1, (run_inputs_reserves parse s ts).2 h⟩⟩

/-- C6 (witness): the demonstration session keeps nonnegative,
non-increasing reserves over a call. -/
theorem c6_reserves_witness :
    0 ≤ sessionDefault.reserves ∧
    (run_inputs pyParseStub sessionDefault [("hello".data)]).reserves ≤
      sessionDefault.reserves ∧
    0 ≤ (run_inputs pyParseStub sessionDefault [("hello".data)]).reserves :=
  ⟨by norm_num [sessionDefault],
   (c6_reserves_nonneg_nonincreasing pyParseStub sessionDefault ("hello".data)
     [("hello".data)] (by norm_num [sessionDefault])).2.1,
   (c6_reserves_nonneg_nonincreasing pyParseStub sessionDefault ("hello".data)
     [("hello".data)] (by norm_num [sessionDefault])).2.2⟩

/-- C7: a same-profile call updates inertia (after any injection penalty)
by `ln E` when `E > 0.5` and by the fixed penalty -2 otherwise, with
`E = Q * (capacity(currentProfile) + reserves) / max(baseCost, 0.1)`,
`Q` the call's quality factor and `reserves` the pre-call balance. -/
theorem c7_alignment_trust (parse : PyParse) (s : EngineState) (t : Text)
    (hs : s.isSanctuary = false)
    (hast : (scan_ast_structure parse (detect_obfuscation t).2).1 = false)
    (hlb : check_logic_bomb (detect_obfuscation t).2 = false)
    (halign : (classify_vector (detect_obfuscation t).2).1 = s.currentProfile) :
    (process_input parse s t).1.inertia =
      (if check_prompt_injection (detect_obfuscation t).2 then s.inertia - 10
       else s.inertia) +
        (if existence_potential_spec s
              (quality_factor (detect_obfuscation t).1 (detect_obfuscation t).2)
              (classify_vector (detect_obfuscation t).2).2 > 0.5 then
          Real.log (existence_potential_spec s
            (quality_factor (detect_obfuscation t).1 (detect_obfuscation t).2)
            (classify_vector (detect_obfuscation t).2).2)
         else -2) := by
  rw [process_input_eq_physics parse s t hs hast hlb, quality_factor_eq]
  have hcur : (classify_vector (detect_obfuscation t).2).1 =
      (if check_prompt_injection (detect_obfuscation t).2 then
        { s with inertia := s.inertia - 10 } else s).currentProfile := by
    rw [inj_state_current]
    exact halign
  rw [physics_phase_inertia_alignment _ _ _ hcur]
  rw [existence_potential_inj, existence_potential_eq_spec _ _ _ (classify_vector_cost_ge _),
    inj_state_inertia]

/-- C7 (witness): an empty input on a Fluid session is a same-profile
call; its inertia update follows the existence-potential formula. -/
theorem c7_alignment_trust_witness :
    (classify_vector (detect_obfuscation ([] : Text)).2).1 = sessionFluid.currentProfile ∧
    (process_input pyParseStub sessionFluid ([] : Text)).1.inertia =
      (if check_prompt_injection (detect_obfuscation ([] : Text)).2 then
        sessionFluid.inertia - 10 else sessionFluid.inertia) +
        (if existence_potential_spec sessionFluid
              (quality_factor (detect_obfuscation ([] : Text)).1
                (detect_obfuscation ([] : Text)).2)
              (classify_vector (detect_obfuscation ([] : Text)).2).2 > 0.5 then
          Real.log (existence_potential_spec sessionFluid
            (quality_factor (detect_obfuscation ([] : Text)).1
              (detect_obfuscation ([] : Text)).2)
            (classify_vector (detect_obfuscation ([] : Text)).2).2)
         else -2) :=
  ⟨by decide,
   c7_alignment_trust pyParseStub sessionFluid [] rfl (by decide) (by decide) (by decide)⟩

/-- C8: a call rejected as insolvent had cost exceeding the balance,
leaves reserves exactly unchanged, and leaves the session unlocked (so the
caller may retry). -/
theorem c8_insolvent_rejection (parse : PyParse) (s : EngineState) (t : Text)
    (h : (process_input parse s t).2 = Outcome.insolvent) :
    ((classify_vector (detect_obfuscation t).2).2 : ℝ) > s.reserves ∧
    (process_input parse s t).1.reserves = s.reserves ∧
    (process_input parse s t).1.isSanctuary = false :=
  ⟨(process_input_insolvent_state parse s t h).2.2,
   (process_input_insolvent_state parse s t h).1,
   (process_input_insolvent_state parse s t h).2.1⟩

/-- C8 (witness): the poor session's "hello" call is insolvent, with
reserves untouched and no lock. -/
theorem c8_insolvent_rejection_witness :
    (process_input pyParseStub sessionPoor ("hello".data)).2 = Outcome.insolvent ∧
    (process_input pyParseStub sessionPoor ("hello".data)).1.reserves =
      sessionPoor.reserves ∧
    (process_input pyParseStub sessionPoor ("hello".data)).1.isSanctuary = false :=
  ⟨by rw [run_hello_poor],
   (c8_insolvent_rejection pyParseStub sessionPoor ("hello".data)
     (by rw [run_hello_poor])).2.1,
   (c8_insolvent_rejection pyParseStub sessionPoor ("hello".data)
     (by rw [run_hello_poor])).2.2⟩

/-- C9: the entropy score is invariant under permutation of the input's
characters, and is 0 on the empty string and on every single-repeated-
character string. -/
theorem c9_entropy_shape :
    (∀ t1 t2 : Text, t1.Perm t2 → score_entropy_noise t1 = score_entropy_noise t2) ∧
    score_entropy_noise ([] : Text) = 0 ∧
    ∀ (c : Char) (n : ℕ), score_entropy_noise (List.replicate n c) = 0 := by
  refine ⟨?_, by simp [score_entropy_noise], ?_⟩
  · intro t1 t2 hp
    unfold score_entropy_noise
    by_cases h1 : t1 = []
    · subst h1
      rw [hp.symm.eq_nil]
    · have h2 : t2 ≠ [] := fun hh => h1 ((hh ▸ hp).eq_nil)
      rw [if_neg h1, if_neg h2, List.toFinset_eq_of_perm t1 t2 hp, hp.length_eq]
      congr 1
      exact Finset.sum_congr rfl (fun c _ => by rw [hp.count_eq])
  · intro c n
    cases n with
    | zero => simp [score_entropy_noise]
    | succ m =>
      unfold score_entropy_noise
      rw [if_neg (by simp)]
      have hf : (List.replicate (m + 1) c).toFinset = {c} :=
        List.toFinset_replicate_of_ne_zero (Nat.succ_ne_zero m)
      rw [hf, Finset.sum_singleton, List.count_replicate_self, List.length_replicate]
      rw [div_self (by exact_mod_cast Nat.succ_ne_zero m), Real.logb_one]
      ring

/-- C9 (witness): the anagrams "ab" and "ba" score identically. -/
theorem c9_entropy_shape_witness :
    (['a', 'b'] : Text).Perm (['b', 'a'] : Text) ∧
    score_entropy_noise (['a', 'b'] : Text) = score_entropy_noise (['b', 'a'] : Text) :=
  ⟨by decide, c9_entropy_shape.1 ['a', 'b'] ['b', 'a'] (by decide)⟩

/-- C10: whenever a call locks a previously unlocked session — for any of
the lock reasons — the resulting inertia is exactly 0; consequently
"locked implies inertia = 0" is an invariant preserved by any sequence of
calls. -/
theorem c10_lock_zeroes_inertia (parse : PyParse) (s : EngineState) (t : Text)
    (ts : List Text) :
    (s.isSanctuary = false → (process_input parse s t).1.isSanctuary = true →
      (process_input parse s t).1.inertia = 0) ∧
    ((s.isSanctuary = true → s.inertia = 0) →
      (run_inputs parse s ts).isSanctuary = true → (run_inputs parse s ts).inertia = 0) :=
  ⟨fun hs => process_input_newly_locked_inertia parse s t hs,
   fun hinv => run_inputs_inertia_invariant parse s ts hinv⟩

/-- C10 (witness): the bankruptcy lock on "override" leaves inertia 0. -/
theorem c10_lock_zeroes_inertia_witness :
    sessionDefault.isSanctuary = false ∧
    (process_input pyParseStub sessionDefault ("override".data)).1.isSanctuary = true ∧
    (process_input pyParseStub sessionDefault ("override".data)).1.inertia = 0 :=
  ⟨rfl, by rw [run_override_default],
   (c10_lock_zeroes_inertia pyParseStub sessionDefault ("override".data) []).1 rfl
     (by rw [run_override_default])⟩

end Helical
